import Mathlib

/-!
# Verification of the Blue Iris export pipeline core

Shallow embedding of `src/bi_exporter/bi_exporter.py` (ExportTracker,
export_single_clip), `src/bi_exporter/bi_client.py` (BlueIrisClient method
surface, download_file_when_ready) and `src/bi_exporter/bi_scheduler.py`
(generate_weekend_dates, build_weekend_jobs), together with proofs of the
specified properties of the tracker store, the per-clip worker state
machine, the persistence discipline and the scheduler.
-/

set_option autoImplicit false
set_option maxRecDepth 8000

namespace BIExport

/-! ## Path model (pathlib fragment used by the tracker) -/

/-- Index of the last dot in a character list, if any. -/
def lastDotPos : List Char → Option Nat
  | [] => none
  | c :: rest =>
    match lastDotPos rest with
    | some n => some (n + 1)
    | none => if c = '.' then some 0 else none

/-- Model of pathlib `with_suffix` applied to a bare file name: the part of the
name from the last dot on is replaced by `suf`; a lone leading dot (hidden
file with no extension) counts as no suffix, in which case `suf` is appended. -/
def nameWithSuffix (name suf : String) : String :=
  match lastDotPos name.toList with
  | some i => if 0 < i then String.mk (name.toList.take i) ++ suf else name ++ suf
  | none => name ++ suf

/-- Tracker file name used by `ExportTracker.__init__`:
`self.path = self.export_root / ".bi_export_tracker.json"`. -/
def trackerFileName : String := ".bi_export_tracker.json"

/-- Absolute path of the tracker file under a given export root. -/
def trackerPathOf (export_root : String) : String :=
  export_root ++ "/" ++ trackerFileName

/-- Temporary file used by `ExportTracker._save`: `self.path.with_suffix(".tmp")`. -/
def tmpFileName : String := nameWithSuffix trackerFileName ".tmp"

/-- Backup file used by `ExportTracker._load` on corruption:
`self.path.with_suffix(".json.bak")`. -/
def bakFileName : String := nameWithSuffix trackerFileName ".json.bak"

/-! ## Association-list maps (Python dict with insertion order) -/

/-- Dict lookup. -/
def lookupA {α : Type} (k : String) : List (String × α) → Option α
  | [] => none
  | (k2, v) :: rest => if k2 = k then some v else lookupA k rest

/-- Dict write: replace in place when the key is present, append otherwise. -/
def insertA {α : Type} (k : String) (v : α) : List (String × α) → List (String × α)
  | [] => [(k, v)]
  | (k2, v2) :: rest => if k2 = k then (k, v) :: rest else (k2, v2) :: insertA k v rest

/-- Dict delete (first occurrence). -/
def eraseA {α : Type} (k : String) : List (String × α) → List (String × α)
  | [] => []
  | (k2, v2) :: rest => if k2 = k then rest else (k2, v2) :: eraseA k rest

/-- Python slice `l[-n:]`: the last `n` elements (all of `l` when shorter). -/
def lastN {α : Type} (n : Nat) (l : List α) : List α := l.drop (l.length - n)

/-! ## Tracker data model -/

/-- `counters` / per-camera counters dict with keys success, failed, skipped. -/
structure Counters where
  success : Nat := 0
  failed : Nat := 0
  skipped : Nat := 0
deriving DecidableEq

/-- One clip record in the `clips` map of the tracker store. The fixed keys
are always overwritten by `record`; the optional keys come from its keyword
arguments and merge into any pre-existing record. -/
structure TrackerRecord where
  camera : String
  clip : String
  status : String
  updated_at_utc : Nat
  reason : Option String := none
  started_at_utc : Option Nat := none
  finished_at_utc : Option Nat := none
  export_id : Option String := none
  filename : Option String := none
  uri : Option String := none
  filesize : Option Nat := none
  error : Option String := none
deriving DecidableEq

/-- The keyword arguments a `record(...)` call may carry. A keyword that is
absent is `none`; the pipeline never passes an explicit `None` for a key a
claim depends on. -/
structure Fields where
  reason : Option String := none
  started_at_utc : Option Nat := none
  finished_at_utc : Option Nat := none
  export_id : Option String := none
  filename : Option String := none
  uri : Option String := none
  filesize : Option Nat := none
  error : Option String := none
deriving DecidableEq

/-- One entry of the bounded `events` list. -/
structure TrackerEvent where
  ts_utc : Nat
  camera : String
  clip : String
  status : String
  filename : Option String := none
  export_id : Option String := none
  error : Option String := none
deriving DecidableEq

/-- In-memory tracker store `self._data`, as created by `ExportTracker._load`. -/
structure Store where
  version : Nat := 1
  created_at_utc : Nat := 0
  updated_at_utc : Nat := 0
  clips : List (String × TrackerRecord) := []
  events : List TrackerEvent := []
  counters : Counters := {}
  per_camera : List (String × Counters) := []
deriving DecidableEq

/-- The fresh store built by `_load` when no file exists or it is corrupt. -/
def emptyStore (now : Nat) : Store :=
  { created_at_utc := now, updated_at_utc := now }

/-- `ExportTracker.clip_key`. -/
def clip_key (camera clip_path : String) : String := camera ++ "|" ++ clip_path

/-- `ExportTracker.has_success`: true iff the clip record exists with status
`success`. -/
def Store.has_success (s : Store) (camera clip_path : String) : Bool :=
  match lookupA (clip_key camera clip_path) s.clips with
  | some r0 => r0.status == "success"
  | none => false

/-- Coercion applied to the status before the counter update in `record`:
`if status not in ("success", "failed", "skipped"): status = "failed"`. -/
def coerceStatus (status : String) : String :=
  if status = "success" ∨ status = "failed" ∨ status = "skipped" then status else "failed"

/-- `counters[status] = counters.get(status, 0) + 1` for a coerced status. -/
def Counters.bump (c : Counters) (status : String) : Counters :=
  if status = "success" then { c with success := c.success + 1 }
  else if status = "failed" then { c with failed := c.failed + 1 }
  else { c with skipped := c.skipped + 1 }

/-- `rec.update(fields)`: a keyword that was passed overwrites the stored
value, an absent keyword leaves it unchanged. -/
def mergeFields (base : TrackerRecord) (f : Fields) : TrackerRecord :=
  { base with
    reason := (f.reason).orElse (fun _ => base.reason)
    started_at_utc := (f.started_at_utc).orElse (fun _ => base.started_at_utc)
    finished_at_utc := (f.finished_at_utc).orElse (fun _ => base.finished_at_utc)
    export_id := (f.export_id).orElse (fun _ => base.export_id)
    filename := (f.filename).orElse (fun _ => base.filename)
    uri := (f.uri).orElse (fun _ => base.uri)
    filesize := (f.filesize).orElse (fun _ => base.filesize)
    error := (f.error).orElse (fun _ => base.error) }

/-- Python truthiness filter used when copying `filename` / `export_id` /
`error` into an event: `if k in fields and fields[k]`. -/
def truthyStr (o : Option String) : Option String :=
  match o with
  | some s => if s = "" then none else some s
  | none => none

/-- `ExportTracker.record` (the in-memory mutation; persistence is modelled
separately by `saveStates`). Upserts the clip record with the raw status,
then bumps global and per-camera counters with the coerced status, appends
an event with the coerced status and truncates the event list to the last
300 entries. -/
def Store.record (s : Store) (camera clip_path status : String) (f : Fields) (now : Nat) :
    Store :=
  let key := clip_key camera clip_path
  let base : TrackerRecord :=
    match lookupA key s.clips with
    | some r0 => r0
    | none => { camera := camera, clip := clip_path, status := status, updated_at_utc := now }
  let r1 : TrackerRecord :=
    mergeFields
      { base with camera := camera, clip := clip_path, status := status, updated_at_utc := now }
      f
  let clips2 := insertA key r1 s.clips
  let st := coerceStatus status
  let counters2 := s.counters.bump st
  let camc := (lookupA camera s.per_camera).getD {}
  let per2 := insertA camera (camc.bump st) s.per_camera
  let ev : TrackerEvent :=
    { ts_utc := now, camera := camera, clip := clip_path, status := st,
      filename := truthyStr f.filename, export_id := truthyStr f.export_id,
      error := truthyStr f.error }
  let events2 := lastN 300 (s.events ++ [ev])
  { s with clips := clips2, counters := counters2, per_camera := per2,
           events := events2, updated_at_utc := now }

/-! ## Client interface as seen by the worker

`export_single_clip` accesses three attributes on the client object it is
handed: `create_export`, `check_export_status` and `download_file`. A Python
attribute access on an object lacking that attribute raises `AttributeError`,
which the worker's catch-all converts into a `failed` record; a method slot
that is `none` models a missing attribute. -/

/-- The client calls the worker can issue. -/
inductive ClientCall where
  | createExport (path : String)
  | checkExportStatus (export_id : String)
  | downloadFile (download_path out_file : String)
deriving DecidableEq

/-- Response dict of a status query: `status.get("status")`,
`status.get("uri")`, `status.get("error")`, `status.get("filesize")`. -/
structure StatusResp where
  status : Option String := none
  uri : Option String := none
  error : Option String := none
  filesize : Option Nat := none
deriving DecidableEq

/-- Response dict of an enqueue call; the worker reads `export_data["path"]`
and a missing key raises `KeyError`. -/
structure CreateResp where
  path : Option String := none
deriving DecidableEq

/-- A Python client object, as the duck-typed surface `export_single_clip`
uses. Each slot carries the method when the attribute exists; `Except.error`
models a raised exception; the `Nat` on the status query is the poll-attempt
index (so an oracle can answer differently per attempt). -/
structure PyClient where
  create_export : Option (String → Except String CreateResp)
  check_export_status : Option (String → Nat → Except String StatusResp)
  download_file : Option (String → String → Except String Unit)

/-- Message of the `AttributeError` raised on a missing method. -/
def attributeError (methodName : String) : String :=
  "AttributeError: " ++ methodName

/-- `bi_client.create_export(...)`. -/
def callCreateExport (c : PyClient) (path : String) : Except String CreateResp :=
  match c.create_export with
  | some f => f path
  | none => Except.error (attributeError "create_export")

/-- `bi_client.check_export_status(export_id)` at a given attempt index. -/
def callCheckExportStatus (c : PyClient) (export_id : String) (attempt : Nat) :
    Except String StatusResp :=
  match c.check_export_status with
  | some f => f export_id attempt
  | none => Except.error (attributeError "check_export_status")

/-- `bi_client.download_file(download_path, out_file)`. -/
def callDownloadFile (c : PyClient) (download_path out_file : String) : Except String Unit :=
  match c.download_file with
  | some f => f download_path out_file
  | none => Except.error (attributeError "download_file")

/-- Methods actually defined on `BlueIrisClient` in `bi_client.py`. -/
def blueIrisClientMethodNames : List String :=
  ["__init__", "login", "_ensure_logged_in", "_post", "list_clips", "list_cameras",
   "enqueue_export", "export_status", "download_file_when_ready"]

/-- The concrete `BlueIrisClient` viewed through the worker's duck-typed
surface: none of the attribute names the worker uses (`create_export`,
`check_export_status`, `download_file`) is defined on the class, so every
slot is a missing attribute. -/
def blueIrisClient : PyClient :=
  { create_export := none, check_export_status := none, download_file := none }

/-! ## Export worker state machine -/

/-- Data the poll loop hands back on the success path. -/
structure DownloadedInfo where
  filename : String
  uri : String
  out_file : String
  filesize : Option Nat := none
deriving DecidableEq

/-- Result dict returned by `export_single_clip`. -/
structure WorkerResult where
  camera : String
  clip : String
  status : String
  reason : Option String := none
  file : Option String := none
  error : Option String := none
deriving DecidableEq

/-- The `for _ in range(300)` poll loop of `export_single_clip`: query the
export status; on `done` with a truthy uri derive the filename from the final
backslash segment, build the `/clips/` download path and download; on `done`
without a uri or on `error` raise; otherwise sleep and retry; after the
attempt budget raise. Returns the raised-or-returned outcome together with
the trace of client calls issued. -/
def pollLoop (c : PyClient) (export_id target_dir : String) :
    Nat → Nat → Except String DownloadedInfo × List ClientCall
  | 0, _ => (Except.error "Export did not reach done status", [])
  | fuel + 1, attempt =>
    match callCheckExportStatus c export_id attempt with
    | Except.error e => (Except.error e, [ClientCall.checkExportStatus export_id])
    | Except.ok st =>
      if st.status = some "done" then
        match st.uri with
        | none =>
            (Except.error "Export completed but no URI returned",
             [ClientCall.checkExportStatus export_id])
        | some uri =>
          if uri = "" then
            (Except.error "Export completed but no URI returned",
             [ClientCall.checkExportStatus export_id])
          else
            let filename := (uri.splitOn "\\").getLastD ""
            let download_path := "/clips/" ++ String.replace uri "\\" "/"
            let out_file := target_dir ++ "/" ++ filename
            match callDownloadFile c download_path out_file with
            | Except.error e =>
                (Except.error e,
                 [ClientCall.checkExportStatus export_id,
                  ClientCall.downloadFile download_path out_file])
            | Except.ok _ =>
                (Except.ok
                  { filename := filename, uri := uri, out_file := out_file,
                    filesize := st.filesize },
                 [ClientCall.checkExportStatus export_id,
                  ClientCall.downloadFile download_path out_file])
      else if st.status = some "error" then
        (Except.error (st.error.getD "Unknown export error"),
         [ClientCall.checkExportStatus export_id])
      else
        let p := pollLoop c export_id target_dir fuel (attempt + 1)
        (p.1, ClientCall.checkExportStatus export_id :: p.2)

/-- `export_single_clip`: dedupe check, enqueue, interim `skipped`/`queued`
marker, poll loop, terminal record; any exception is converted into a
`failed` record and result. The worker's timestamps are passed in
(`t0` = start, `t1` = time of the interim record, `t2` = finish). The third
component is the trace of client calls issued. -/
def export_single_clip (c : PyClient) (tracker : Store) (camera clip_path target_dir : String)
    (t0 t1 t2 : Nat) : WorkerResult × Store × List ClientCall :=
  if tracker.has_success camera clip_path then
    let tracker2 := tracker.record camera clip_path "skipped"
      { reason := some "dedupe_success" } t0
    ({ camera := camera, clip := clip_path, status := "skipped",
       reason := some "already_exported" }, tracker2, [])
  else
    let started := t0
    match callCreateExport c clip_path with
    | Except.error e =>
        let tracker2 := tracker.record camera clip_path "failed"
          { started_at_utc := some started, finished_at_utc := some t2, error := some e } t2
        ({ camera := camera, clip := clip_path, status := "failed", error := some e },
         tracker2, [ClientCall.createExport clip_path])
    | Except.ok resp =>
      match resp.path with
      | none =>
          let e := "KeyError: path"
          let tracker2 := tracker.record camera clip_path "failed"
            { started_at_utc := some started, finished_at_utc := some t2, error := some e } t2
          ({ camera := camera, clip := clip_path, status := "failed", error := some e },
           tracker2, [ClientCall.createExport clip_path])
      | some export_id =>
        let tracker1 := tracker.record camera clip_path "skipped"
          { started_at_utc := some started, export_id := some export_id,
            reason := some "queued" } t1
        let p := pollLoop c export_id target_dir 300 0
        match p.1 with
        | Except.ok info =>
            let tracker2 := tracker1.record camera clip_path "success"
              { started_at_utc := some started, finished_at_utc := some t2,
                export_id := some export_id, filename := some info.filename,
                uri := some info.uri, filesize := info.filesize } t2
            ({ camera := camera, clip := clip_path, status := "success",
               file := some info.out_file },
             tracker2, ClientCall.createExport clip_path :: p.2)
        | Except.error e =>
            let tracker2 := tracker1.record camera clip_path "failed"
              { started_at_utc := some started, finished_at_utc := some t2,
                error := some e } t2
            ({ camera := camera, clip := clip_path, status := "failed", error := some e },
             tracker2, ClientCall.createExport clip_path :: p.2)

/-! ## Filesystem model, tracker load and save

Files that live in the tracker's directory, keyed by file name. -/

/-- Directory contents: file name to byte content. -/
abbrev FS := List (String × String)

/-- `os` rename with replacement of the destination; `_load` wraps its rename
in `try/except: pass`, so a missing source is a no-op. -/
def renameF (src dst : String) (fs : FS) : FS :=
  match lookupA src fs with
  | some content => insertA dst content (eraseA src fs)
  | none => fs

/-- Serialization of the store written by `_save` (models the
`json.dumps(self._data, indent=2, sort_keys=True)` text as an injective
rendering; the persistence claims depend only on whole-file replacement, not
on the concrete JSON syntax). -/
def serializeOptS : Option String → String
  | none => "null"
  | some s => "\"" ++ s ++ "\""

/-- Rendering of an optional number. -/
def serializeOptN : Option Nat → String
  | none => "null"
  | some n => toString n

/-- Rendering of a counters dict. -/
def serializeCounters (c : Counters) : String :=
  "(failed=" ++ toString c.failed ++ ",skipped=" ++ toString c.skipped ++
    ",success=" ++ toString c.success ++ ")"

/-- Rendering of a clip record. -/
def serializeRecord (r : TrackerRecord) : String :=
  "(camera=" ++ r.camera ++ ",clip=" ++ r.clip ++ ",error=" ++ serializeOptS r.error ++
    ",export_id=" ++ serializeOptS r.export_id ++ ",filename=" ++ serializeOptS r.filename ++
    ",filesize=" ++ serializeOptN r.filesize ++
    ",finished_at_utc=" ++ serializeOptN r.finished_at_utc ++
    ",reason=" ++ serializeOptS r.reason ++
    ",started_at_utc=" ++ serializeOptN r.started_at_utc ++
    ",status=" ++ r.status ++ ",updated_at_utc=" ++ toString r.updated_at_utc ++
    ",uri=" ++ serializeOptS r.uri ++ ")"

/-- Rendering of an event. -/
def serializeEvent (e : TrackerEvent) : String :=
  "(camera=" ++ e.camera ++ ",clip=" ++ e.clip ++ ",error=" ++ serializeOptS e.error ++
    ",export_id=" ++ serializeOptS e.export_id ++ ",filename=" ++ serializeOptS e.filename ++
    ",status=" ++ e.status ++ ",ts_utc=" ++ toString e.ts_utc ++ ")"

/-- Rendering of a string-keyed map. -/
def serializeMap {α : Type} (f : α → String) (m : List (String × α)) : String :=
  "[" ++ String.intercalate "," (m.map (fun kv => kv.1 ++ ":" ++ f kv.2)) ++ "]"

/-- Rendering of the whole store document. -/
def serializeStore (s : Store) : String :=
  "(clips=" ++ serializeMap serializeRecord s.clips ++
    ",counters=" ++ serializeCounters s.counters ++
    ",created_at_utc=" ++ toString s.created_at_utc ++
    ",events=" ++ "[" ++ String.intercalate "," (s.events.map serializeEvent) ++ "]" ++
    ",per_camera=" ++ serializeMap serializeCounters s.per_camera ++
    ",updated_at_utc=" ++ toString s.updated_at_utc ++
    ",version=" ++ toString s.version ++ ")"

/-- `ExportTracker._load`, parameterized by the external JSON parser: no file
yields a fresh empty store; an unparseable file is renamed to the backup name
and a fresh empty store is returned; the function is total (the constructor
never raises on corruption). -/
def loadTracker (parse : String → Option Store) (fs : FS) (now : Nat) : Store × FS :=
  match lookupA trackerFileName fs with
  | none => (emptyStore now, fs)
  | some content =>
    match parse content with
    | some s => (s, fs)
    | none => (emptyStore now, renameF trackerFileName bakFileName fs)

/-- The filesystem states visible while `_save` runs after a mutation: the
state before the call, a state mid-way through writing the temporary file
(`interim` is whatever prefix of the serialized text has reached the disk),
the state after `tmp.write_text` completes, and the state after the atomic
`tmp.replace(self.path)`. -/
def saveStates (fs : FS) (content interim : String) : List FS :=
  [fs,
   insertA tmpFileName interim fs,
   insertA tmpFileName content fs,
   renameF tmpFileName trackerFileName (insertA tmpFileName content fs)]

/-! ## Download helper of the client (`download_file_when_ready`) -/

/-- One step of iterating a streamed HTTP body: a delivered chunk, or a
transport exception raised mid-iteration. -/
inductive BodyItem where
  | chunk (data : String)
  | errItem (e : String)
deriving DecidableEq

/-- An HTTP response to one `GET /file/...` poll. -/
structure HttpResp where
  status_code : Nat
  body : List BodyItem := []
deriving DecidableEq

/-- The `with open(output_path, "wb")` chunk-write loop: empty chunks are
skipped (`if chunk:`), each other chunk is appended to the file; an exception
mid-iteration propagates, leaving whatever was already written in place. -/
def writeBody (output_path : String) : List BodyItem → FS → Option String × FS
  | [], fs => (none, fs)
  | BodyItem.chunk c :: rest, fs =>
    if c = "" then writeBody output_path rest fs
    else
      let cur := (lookupA output_path fs).getD ""
      writeBody output_path rest (insertA output_path (cur ++ c) fs)
  | BodyItem.errItem e :: _, fs => (some e, fs)

/-- `BlueIrisClient.download_file_when_ready`: poll the file URL up to
`poll_attempts` times; on HTTP 200 open the final output path for writing
(truncating it) and stream the body into it; on any other status retry; when
the budget is exhausted raise. The first component is the raised exception,
if any. -/
def download_file_when_ready (responses : Nat → HttpResp) (output_path : String) :
    Nat → Nat → FS → Option String × FS
  | 0, _, fs => (some "Export never became available for download", fs)
  | n + 1, i, fs =>
    let r := responses i
    if r.status_code = 200 then
      writeBody output_path r.body (insertA output_path "" fs)
    else
      download_file_when_ready responses output_path n (i + 1) fs

/-! ## Job scheduler (`bi_scheduler.py`) -/

/-- `datetime.weekday()` on a proleptic-Gregorian ordinal day number
(`date.toordinal()`): ordinal 1 is 0001-01-01, a Monday (weekday 0). -/
def pyWeekday (ordinal : Nat) : Nat := (ordinal + 6) % 7

/-- `current.weekday() in (4, 5, 6)` — Friday, Saturday or Sunday. -/
def isWeekendDay (d : Nat) : Bool :=
  pyWeekday d == 4 || pyWeekday d == 5 || pyWeekday d == 6

/-- `generate_weekend_dates`: walk the inclusive ordinal range and keep the
weekend days, in ascending order. -/
def generate_weekend_dates (start_date end_date : Nat) : List Nat :=
  if start_date ≤ end_date then
    (if isWeekendDay start_date then [start_date] else []) ++
      generate_weekend_dates (start_date + 1) end_date
  else []
termination_by end_date + 1 - start_date
decreasing_by simp_wf; omega

/-- One job dict produced by `build_weekend_jobs` (`end` is a Lean keyword,
rendered as `endT`). -/
structure ExportJob where
  camera : String
  date : Nat
  start : String
  endT : String
  timezone : String
deriving DecidableEq

/-- `build_weekend_jobs`: one job per (weekend date, camera) pair, date-major,
carrying the fixed time window and timezone. Dates are ordinals (the
`strptime` text-to-date step is outside the model). -/
def build_weekend_jobs (start_date end_date : Nat) (cameras : List String)
    (timezone : String) (start_time : String := "18:00:00")
    (end_time : String := "23:00:00") : List ExportJob :=
  (generate_weekend_dates start_date end_date).flatMap (fun day =>
    cameras.map (fun camera =>
      { camera := camera, date := day, start := start_time, endT := end_time,
        timezone := timezone }))

/-! ## Map and slicing lemmas -/

theorem lookupA_insertA_eq {α : Type} (k : String) (v : α) (l : List (String × α)) :
    lookupA k (insertA k v l) = some v := by
  induction l with
  | nil => simp [insertA, lookupA]
  | cons hd tl ih =>
    by_cases h : hd.1 = k
    · simp [insertA, lookupA, h]
    · simp only [insertA, lookupA, h, if_false]
      exact ih

theorem lookupA_insertA_ne {α : Type} (k k2 : String) (v : α) (l : List (String × α))
    (h : k ≠ k2) : lookupA k (insertA k2 v l) = lookupA k l := by
  have hs : k2 ≠ k := Ne.symm h
  induction l with
  | nil => simp [insertA, lookupA, hs]
  | cons hd tl ih =>
    by_cases hk : hd.1 = k2
    · simp [insertA, lookupA, hk, hs]
    · simp only [insertA, hk, if_false]
      by_cases h3 : hd.1 = k <;> simp [lookupA, h3, ih, h]

theorem lookupA_eraseA_ne {α : Type} (k k2 : String) (l : List (String × α))
    (h : k ≠ k2) : lookupA k (eraseA k2 l) = lookupA k l := by
  induction l with
  | nil => simp [eraseA]
  | cons hd tl ih =>
    by_cases hk : hd.1 = k2
    · have h3 : ¬ hd.1 = k := by rw [hk]; exact Ne.symm h
      simp [eraseA, lookupA, hk, h3, Ne.symm h]
    · simp only [eraseA, hk, if_false]
      by_cases h3 : hd.1 = k <;> simp [lookupA, h3, ih]

theorem length_lastN {α : Type} (n : Nat) (l : List α) :
    (lastN n l).length = min n l.length := by
  simp [lastN]
  omega

theorem lastN_absorb {α : Type} (n : Nat) (xs ys : List α) :
    lastN n (lastN n xs ++ ys) = lastN n (xs ++ ys) := by
  rcases Nat.le_total n xs.length with h | h
  · unfold lastN
    rw [List.drop_append_eq_append_drop, List.drop_drop, List.drop_append_eq_append_drop]
    simp only [List.length_append, List.length_drop]
    congr 1
    · congr 1
      omega
    · congr 1
      omega
  · have e0 : xs.length - n = 0 := by omega
    simp [lastN, e0]

theorem getLast?_lastN_concat {α : Type} (n : Nat) (hn : 0 < n) (l : List α) (a : α) :
    (lastN n (l ++ [a])).getLast? = some a := by
  unfold lastN
  rw [List.drop_append_of_le_length (by simp; omega)]
  exact List.getLast?_concat _

/-! ## Behaviour of one `record` call -/

theorem record_counters (s : Store) (camera clip status : String) (f : Fields) (now : Nat) :
    (s.record camera clip status f now).counters = s.counters.bump (coerceStatus status) := rfl

theorem record_per_camera (s : Store) (camera clip status : String) (f : Fields) (now : Nat) :
    lookupA camera (s.record camera clip status f now).per_camera =
      some (((lookupA camera s.per_camera).getD {}).bump (coerceStatus status)) := by
  simp [Store.record, lookupA_insertA_eq]

theorem record_events (s : Store) (camera clip status : String) (f : Fields) (now : Nat) :
    (s.record camera clip status f now).events =
      lastN 300 (s.events ++
        [{ ts_utc := now, camera := camera, clip := clip, status := coerceStatus status,
           filename := truthyStr f.filename, export_id := truthyStr f.export_id,
           error := truthyStr f.error }]) := rfl

theorem record_lookup_status (s : Store) (camera clip status : String) (f : Fields) (now : Nat) :
    (lookupA (clip_key camera clip) (s.record camera clip status f now).clips).map
      TrackerRecord.status = some status := by
  simp [Store.record, lookupA_insertA_eq, mergeFields]

theorem record_lookup_reason (s : Store) (camera clip status rsn : String) (f : Fields)
    (now : Nat) (hr : f.reason = some rsn) :
    (lookupA (clip_key camera clip) (s.record camera clip status f now).clips).bind
      TrackerRecord.reason = some rsn := by
  simp [Store.record, lookupA_insertA_eq, mergeFields, hr]

theorem bump_success (c : Counters) : c.bump "success" = { c with success := c.success + 1 } := rfl

theorem bump_failed (c : Counters) : c.bump "failed" = { c with failed := c.failed + 1 } := rfl

theorem bump_skipped (c : Counters) : c.bump "skipped" = { c with skipped := c.skipped + 1 } := rfl

theorem coerceStatus_out (status : String)
    (h : ¬ (status = "success" ∨ status = "failed" ∨ status = "skipped")) :
    coerceStatus status = "failed" := by
  simp [coerceStatus, h]

/-! ## C9 — tracker file location -/

/-- C9 counterexample: the tracker's backing file under export root
`/exports` is `/exports/.bi_export_tracker.json`, not the
`/exports/.export_tracker.json` the claim states. -/
theorem tracker_path_counterexample :
    trackerPathOf "/exports" = "/exports/.bi_export_tracker.json" ∧
      ¬ trackerPathOf "/exports" = "/exports/.export_tracker.json" := by
  constructor
  · rfl
  · decide

/-- C9 (amended): the tracker's backing store lives at
`<exportRoot>/.bi_export_tracker.json`; its temporary and backup companions
derive from that same name. -/
theorem tracker_path_location (export_root : String) :
    trackerPathOf export_root = export_root ++ "/.bi_export_tracker.json" ∧
      trackerFileName = ".bi_export_tracker.json" ∧
      tmpFileName = ".bi_export_tracker.tmp" ∧
      bakFileName = ".bi_export_tracker.json.bak" := by
  refine ⟨?_, rfl, by decide, by decide⟩
  show export_root ++ "/" ++ trackerFileName = _
  rw [String.append_assoc]
  rfl

/-! ## C8 — status coercion -/

/-- C8 counterexample: a `record` call with the out-of-set status `"queued"`
does bump the failed counter, but the clip record stored in the clips map
keeps the raw status `"queued"`, which is outside
`{success, failed, skipped}` — refuting the second half of the claim. -/
theorem status_coercion_counterexample :
    ((emptyStore 0).record "cam" "clip1" "queued" {} 5).counters.failed = 1 ∧
      (lookupA "cam|clip1" ((emptyStore 0).record "cam" "clip1" "queued" {} 5).clips).map
        TrackerRecord.status = some "queued" ∧
      ¬ ("queued" = "success" ∨ "queued" = "failed" ∨ "queued" = "skipped") := by
  refine ⟨rfl, rfl, by decide⟩

/-- C8 (amended): a `record` call with a status outside
`{success, failed, skipped}` increments the global and per-camera failed
counters and logs an event with status `failed`, but the TrackerRecord stored
in the clips map retains the original out-of-set status (the coercion happens
after the clip record is stored). -/
theorem status_coercion_counters (s : Store) (camera clip status : String) (f : Fields)
    (now : Nat) (h : ¬ (status = "success" ∨ status = "failed" ∨ status = "skipped")) :
    ((s.record camera clip status f now).counters.failed = s.counters.failed + 1 ∧
      (s.record camera clip status f now).counters.success = s.counters.success ∧
      (s.record camera clip status f now).counters.skipped = s.counters.skipped) ∧
    (lookupA camera (s.record camera clip status f now).per_camera).map Counters.failed =
      some (((lookupA camera s.per_camera).getD {}).failed + 1) ∧
    (lookupA (clip_key camera clip) (s.record camera clip status f now).clips).map
      TrackerRecord.status = some status ∧
    ((s.record camera clip status f now).events.getLast?).map TrackerEvent.status =
      some "failed" := by
  have hc : coerceStatus status = "failed" := coerceStatus_out status h
  refine ⟨⟨?_, ?_, ?_⟩, ?_, record_lookup_status s camera clip status f now, ?_⟩
  · rw [record_counters, hc, bump_failed]
  · rw [record_counters, hc, bump_failed]
  · rw [record_counters, hc, bump_failed]
  · rw [record_per_camera, hc, bump_failed]
    rfl
  · rw [record_events, hc, getLast?_lastN_concat 300 (by decide)]
    rfl

/-- C8 witness: the amended theorem applied to the concrete out-of-set
status `"queued"` on the empty store. -/
theorem status_coercion_counters_witness :
    (((emptyStore 0).record "cam" "clip1" "queued" {} 5).counters.failed =
        (emptyStore 0).counters.failed + 1 ∧
      ((emptyStore 0).record "cam" "clip1" "queued" {} 5).counters.success =
        (emptyStore 0).counters.success ∧
      ((emptyStore 0).record "cam" "clip1" "queued" {} 5).counters.skipped =
        (emptyStore 0).counters.skipped) ∧
    (lookupA "cam" ((emptyStore 0).record "cam" "clip1" "queued" {} 5).per_camera).map
      Counters.failed =
      some (((lookupA "cam" (emptyStore 0).per_camera).getD {}).failed + 1) ∧
    (lookupA (clip_key "cam" "clip1")
      ((emptyStore 0).record "cam" "clip1" "queued" {} 5).clips).map
      TrackerRecord.status = some "queued" ∧
    (((emptyStore 0).record "cam" "clip1" "queued" {} 5).events.getLast?).map
      TrackerEvent.status = some "failed" :=
  status_coercion_counters (emptyStore 0) "cam" "clip1" "queued" {} 5 (by decide)

/-! ## C4 — atomic persistence of `record` -/

/-- C4: every mutation through `record` persists the whole store by first
writing the serialized post-mutation state to the temporary file and then
renaming it over the tracker file: at every filesystem state visible during
the save — before, mid-write of the temporary (any `interim` prefix), after
the temporary write, after the rename — the tracker file holds either the
complete pre-mutation content or the complete post-mutation serialization,
and the final state holds the post-mutation serialization. -/
theorem record_persistence_atomic (fs : FS) (s : Store) (camera clip status : String)
    (f : Fields) (now : Nat) (interim : String) :
    (∀ g ∈ saveStates fs (serializeStore (s.record camera clip status f now)) interim,
      lookupA trackerFileName g = lookupA trackerFileName fs ∨
        lookupA trackerFileName g =
          some (serializeStore (s.record camera clip status f now))) ∧
    lookupA trackerFileName
        ((saveStates fs (serializeStore (s.record camera clip status f now)) interim).getLastD
          []) =
      some (serializeStore (s.record camera clip status f now)) := by
  have hne : trackerFileName ≠ tmpFileName := by decide
  have hlast : ∀ content : String,
      lookupA trackerFileName (renameF tmpFileName trackerFileName
        (insertA tmpFileName content fs)) = some content := by
    intro content
    rw [renameF, lookupA_insertA_eq]
    exact lookupA_insertA_eq trackerFileName content _
  constructor
  · intro g hg
    simp only [saveStates, List.mem_cons, List.not_mem_nil, or_false] at hg
    rcases hg with h1 | h1 | h1 | h1
    · rw [h1]; exact Or.inl rfl
    · rw [h1]; exact Or.inl (lookupA_insertA_ne _ _ _ _ hne)
    · rw [h1]; exact Or.inl (lookupA_insertA_ne _ _ _ _ hne)
    · rw [h1]; exact Or.inr (hlast _)
  · exact hlast _

/-- C4 witness: the atomicity statement applied to a concrete filesystem and
mutation, with the final state checked to carry the new serialization. -/
theorem record_persistence_atomic_witness :
    lookupA trackerFileName [("other.txt", "x")] = lookupA trackerFileName [("other.txt", "x")] ∨
      lookupA trackerFileName [("other.txt", "x")] =
        some (serializeStore ((emptyStore 0).record "cam" "p" "success" {} 3)) :=
  (record_persistence_atomic [("other.txt", "x")] (emptyStore 0) "cam" "p" "success" {} 3
    "(cli").1 [("other.txt", "x")] (by simp [saveStates])

/-! ## C6 — corrupt store recovery -/

/-- C6: constructing the tracker over an existing but unparseable backing
file does not raise (the loader is a total function), yields the fresh empty
store — no clip records, zero counters, empty event log — and renames the
unparseable file to the backup name with its bytes intact. -/
theorem corrupt_store_recovery (parse : String → Option Store) (fs : FS) (now : Nat)
    (content : String) (hf : lookupA trackerFileName fs = some content)
    (hp : parse content = none) :
    (loadTracker parse fs now).1 = emptyStore now ∧
    (loadTracker parse fs now).1.clips = [] ∧
    (loadTracker parse fs now).1.counters = { success := 0, failed := 0, skipped := 0 } ∧
    (loadTracker parse fs now).1.events = [] ∧
    lookupA bakFileName (loadTracker parse fs now).2 = some content := by
  have e : loadTracker parse fs now =
      (emptyStore now, renameF trackerFileName bakFileName fs) := by
    unfold loadTracker
    rw [hf]
    dsimp only
    rw [hp]
  rw [e]
  refine ⟨rfl, rfl, rfl, rfl, ?_⟩
  rw [renameF, hf]
  exact lookupA_insertA_eq bakFileName content _

/-- C6 witness: recovery applied to a filesystem holding garbage under the
tracker file name, with a parser that rejects it. -/
theorem corrupt_store_recovery_witness :
    (loadTracker (fun _ => none) [(trackerFileName, "garbage")] 7).1 = emptyStore 7 ∧
    (loadTracker (fun _ => none) [(trackerFileName, "garbage")] 7).1.clips = [] ∧
    (loadTracker (fun _ => none) [(trackerFileName, "garbage")] 7).1.counters =
      { success := 0, failed := 0, skipped := 0 } ∧
    (loadTracker (fun _ => none) [(trackerFileName, "garbage")] 7).1.events = [] ∧
    lookupA bakFileName (loadTracker (fun _ => none) [(trackerFileName, "garbage")] 7).2 =
      some "garbage" :=
  corrupt_store_recovery (fun _ => none) [(trackerFileName, "garbage")] 7 "garbage" rfl rfl

/-! ## C1 — dedup idempotence of the worker -/

/-- C1: for a clip identity whose persisted record has status `success`, the
worker issues no client calls at all, records `skipped` with reason
`dedupe_success` (bumping the skipped counter), and returns a result with
status `skipped`. -/
theorem dedupe_skip_no_client_calls (c : PyClient) (s : Store)
    (camera clip_path target_dir : String) (t0 t1 t2 : Nat)
    (h : s.has_success camera clip_path = true) :
    (export_single_clip c s camera clip_path target_dir t0 t1 t2).2.2 = [] ∧
    (export_single_clip c s camera clip_path target_dir t0 t1 t2).1.status = "skipped" ∧
    (lookupA (clip_key camera clip_path)
        (export_single_clip c s camera clip_path target_dir t0 t1 t2).2.1.clips).map
      TrackerRecord.status = some "skipped" ∧
    (lookupA (clip_key camera clip_path)
        (export_single_clip c s camera clip_path target_dir t0 t1 t2).2.1.clips).bind
      TrackerRecord.reason = some "dedupe_success" ∧
    (export_single_clip c s camera clip_path target_dir t0 t1 t2).2.1.counters.skipped =
      s.counters.skipped + 1 := by
  have e : export_single_clip c s camera clip_path target_dir t0 t1 t2 =
      ({ camera := camera, clip := clip_path, status := "skipped",
         reason := some "already_exported" },
       s.record camera clip_path "skipped" { reason := some "dedupe_success" } t0, []) := by
    unfold export_single_clip
    simp [h]
  rw [e]
  refine ⟨rfl, rfl, record_lookup_status s camera clip_path "skipped" _ t0,
    record_lookup_reason s camera clip_path "skipped" "dedupe_success" _ t0 rfl, ?_⟩
  rw [record_counters]
  rfl

/-- A store holding a persisted success record for identity `cam|p`. -/
def successStoreW : Store :=
  { emptyStore 0 with
    clips := [("cam|p", { camera := "cam", clip := "p", status := "success",
                          updated_at_utc := 0 })],
    counters := { success := 1 } }

/-- C1 witness: the dedup theorem applied to a store holding a success record
for the identity, with an arbitrary client. -/
theorem dedupe_skip_no_client_calls_witness :
    (export_single_clip blueIrisClient successStoreW "cam" "p" "/out" 1 2 3).2.2 = [] ∧
    (export_single_clip blueIrisClient successStoreW "cam" "p" "/out" 1 2 3).1.status =
      "skipped" ∧
    (lookupA (clip_key "cam" "p")
        (export_single_clip blueIrisClient successStoreW "cam" "p" "/out" 1 2 3).2.1.clips).map
      TrackerRecord.status = some "skipped" ∧
    (lookupA (clip_key "cam" "p")
        (export_single_clip blueIrisClient successStoreW "cam" "p" "/out" 1 2 3).2.1.clips).bind
      TrackerRecord.reason = some "dedupe_success" ∧
    (export_single_clip blueIrisClient successStoreW "cam" "p" "/out" 1 2 3).2.1.counters.skipped =
      successStoreW.counters.skipped + 1 :=
  dedupe_skip_no_client_calls blueIrisClient successStoreW "cam" "p" "/out" 1 2 3 (by decide)

/-! ## C3 — the worker/client method-name mismatch -/

/-- C3: wired to the concrete `BlueIrisClient`, whose class defines none of
the attribute names the worker calls (`create_export`, `check_export_status`,
`download_file`) but does define `enqueue_export`, `export_status` and
`download_file_when_ready`, a non-deduped clip always fails: the first client
access raises `AttributeError`, the catch-all records `failed`, and the
returned result has status `failed` — no export can succeed through this
pairing. -/
theorem concrete_client_always_fails (s : Store) (camera clip_path target_dir : String)
    (t0 t1 t2 : Nat) (h : s.has_success camera clip_path = false) :
    (export_single_clip blueIrisClient s camera clip_path target_dir t0 t1 t2).1.status =
      "failed" ∧
    (export_single_clip blueIrisClient s camera clip_path target_dir t0 t1 t2).1.error =
      some (attributeError "create_export") ∧
    (lookupA (clip_key camera clip_path)
        (export_single_clip blueIrisClient s camera clip_path target_dir t0 t1 t2).2.1.clips).map
      TrackerRecord.status = some "failed" ∧
    (export_single_clip blueIrisClient s camera clip_path target_dir t0 t1 t2).2.1.counters.failed =
      s.counters.failed + 1 ∧
    ¬ "create_export" ∈ blueIrisClientMethodNames ∧
    ¬ "check_export_status" ∈ blueIrisClientMethodNames ∧
    ¬ "download_file" ∈ blueIrisClientMethodNames ∧
    "enqueue_export" ∈ blueIrisClientMethodNames ∧
    "export_status" ∈ blueIrisClientMethodNames ∧
    "download_file_when_ready" ∈ blueIrisClientMethodNames := by
  have e : export_single_clip blueIrisClient s camera clip_path target_dir t0 t1 t2 =
      ({ camera := camera, clip := clip_path, status := "failed",
         error := some (attributeError "create_export") },
       s.record camera clip_path "failed"
         { started_at_utc := some t0, finished_at_utc := some t2,
           error := some (attributeError "create_export") } t2,
       [ClientCall.createExport clip_path]) := by
    unfold export_single_clip
    simp [h, callCreateExport, blueIrisClient]
  rw [e]
  refine ⟨rfl, rfl, record_lookup_status s camera clip_path "failed" _ t2, ?_,
    by decide, by decide, by decide, by decide, by decide, by decide⟩
  rw [record_counters]
  rfl

/-- C3 witness: the mismatch theorem applied to the empty tracker store. -/
theorem concrete_client_always_fails_witness :
    (export_single_clip blueIrisClient (emptyStore 0) "cam" "p" "/out" 1 2 3).1.status =
      "failed" ∧
    (export_single_clip blueIrisClient (emptyStore 0) "cam" "p" "/out" 1 2 3).1.error =
      some (attributeError "create_export") ∧
    (lookupA (clip_key "cam" "p")
        (export_single_clip blueIrisClient (emptyStore 0) "cam" "p" "/out" 1 2 3).2.1.clips).map
      TrackerRecord.status = some "failed" ∧
    (export_single_clip blueIrisClient (emptyStore 0) "cam" "p" "/out" 1 2 3).2.1.counters.failed =
      (emptyStore 0).counters.failed + 1 ∧
    ¬ "create_export" ∈ blueIrisClientMethodNames ∧
    ¬ "check_export_status" ∈ blueIrisClientMethodNames ∧
    ¬ "download_file" ∈ blueIrisClientMethodNames ∧
    "enqueue_export" ∈ blueIrisClientMethodNames ∧
    "export_status" ∈ blueIrisClientMethodNames ∧
    "download_file_when_ready" ∈ blueIrisClientMethodNames :=
  concrete_client_always_fails (emptyStore 0) "cam" "p" "/out" 1 2 3 (by decide)

/-! ## C5 — bounded event log -/

/-- The arguments of one `record(...)` call. -/
structure RecordCall where
  camera : String
  clip : String
  status : String
  fields : Fields := {}
  now : Nat := 0
deriving DecidableEq

/-- Apply one `record` call to the store. -/
def applyCall (s : Store) (c : RecordCall) : Store :=
  s.record c.camera c.clip c.status c.fields c.now

/-- Apply a sequence of `record` calls in order. -/
def applyCalls (s : Store) (calls : List RecordCall) : Store :=
  calls.foldl applyCall s

/-- The event one `record` call appends to the log. -/
def eventOfCall (c : RecordCall) : TrackerEvent :=
  { ts_utc := c.now, camera := c.camera, clip := c.clip, status := coerceStatus c.status,
    filename := truthyStr c.fields.filename, export_id := truthyStr c.fields.export_id,
    error := truthyStr c.fields.error }

theorem lastN_append_of_le {α : Type} (n : Nat) (xs ys : List α) (h : n ≤ ys.length) :
    lastN n (xs ++ ys) = lastN n ys := by
  unfold lastN
  rw [List.length_append, List.drop_append_eq_append_drop,
    List.drop_eq_nil_of_le (by omega), List.nil_append]
  congr 1
  omega

theorem applyCalls_events_of_le (calls : List RecordCall) (s : Store)
    (hs : s.events.length ≤ 300) :
    (applyCalls s calls).events = lastN 300 (s.events ++ calls.map eventOfCall) := by
  induction calls generalizing s with
  | nil =>
    have h0 : s.events.length - 300 = 0 := by omega
    simp [applyCalls, lastN, h0]
  | cons c cs ih =>
    have step : (applyCall s c).events = lastN 300 (s.events ++ [eventOfCall c]) := rfl
    have hlen : (applyCall s c).events.length ≤ 300 := by
      rw [step, length_lastN]
      omega
    calc (applyCalls s (c :: cs)).events
        = (applyCalls (applyCall s c) cs).events := rfl
      _ = lastN 300 ((applyCall s c).events ++ cs.map eventOfCall) := ih _ hlen
      _ = lastN 300 (lastN 300 (s.events ++ [eventOfCall c]) ++ cs.map eventOfCall) := by
          rw [step]
      _ = lastN 300 ((s.events ++ [eventOfCall c]) ++ cs.map eventOfCall) :=
          lastN_absorb 300 _ _
      _ = lastN 300 (s.events ++ (c :: cs).map eventOfCall) := by
          rw [List.append_assoc]
          rfl

/-- C5: after more than 300 `record` calls, starting from any store state,
the event log has length exactly 300 and consists of the events of the 300
most recent calls in call order (newest last). -/
theorem event_log_bounded (s : Store) (calls : List RecordCall) (h : 300 < calls.length) :
    (applyCalls s calls).events.length = 300 ∧
    (applyCalls s calls).events = (lastN 300 calls).map eventOfCall := by
  rcases calls with _ | ⟨c, cs⟩
  · simp at h
  · have step : (applyCall s c).events = lastN 300 (s.events ++ [eventOfCall c]) := rfl
    have hlen : (applyCall s c).events.length ≤ 300 := by
      rw [step, length_lastN]
      omega
    have e1 : (applyCalls s (c :: cs)).events =
        lastN 300 (s.events ++ (c :: cs).map eventOfCall) := by
      calc (applyCalls s (c :: cs)).events
          = (applyCalls (applyCall s c) cs).events := rfl
        _ = lastN 300 ((applyCall s c).events ++ cs.map eventOfCall) :=
            applyCalls_events_of_le cs _ hlen
        _ = lastN 300 (lastN 300 (s.events ++ [eventOfCall c]) ++ cs.map eventOfCall) := by
            rw [step]
        _ = lastN 300 ((s.events ++ [eventOfCall c]) ++ cs.map eventOfCall) :=
            lastN_absorb 300 _ _
        _ = lastN 300 (s.events ++ (c :: cs).map eventOfCall) := by
            rw [List.append_assoc]
            rfl
    have e2 : lastN 300 (s.events ++ (c :: cs).map eventOfCall) =
        lastN 300 ((c :: cs).map eventOfCall) := by
      apply lastN_append_of_le
      rw [List.length_map]
      omega
    have e3 : lastN 300 ((c :: cs).map eventOfCall) =
        (lastN 300 (c :: cs)).map eventOfCall := by
      unfold lastN
      rw [List.map_drop, List.length_map]
    constructor
    · rw [e1, e2, e3, List.length_map, length_lastN]
      simp at h ⊢
      omega
    · rw [e1, e2, e3]

/-- A minimal record call used to exercise the bounded log. -/
def simpleCallW : RecordCall := { camera := "c", clip := "p", status := "success" }

/-- C5 witness: 301 identical calls on the empty store leave exactly the 300
most recent events. -/
theorem event_log_bounded_witness :
    (applyCalls (emptyStore 0) (List.replicate 301 simpleCallW)).events.length = 300 ∧
    (applyCalls (emptyStore 0) (List.replicate 301 simpleCallW)).events =
      (lastN 300 (List.replicate 301 simpleCallW)).map eventOfCall :=
  event_log_bounded (emptyStore 0) (List.replicate 301 simpleCallW) (by simp)

/-! ## C2 — happy-path counters -/

/-- An abstract client oracle for the happy path: enqueue returns export id
`eid`; the status query reports `processing` before attempt `k` and `done`
with locator `uri2` and size `fsz` from attempt `k` on; download succeeds. -/
def happyClient (eid uri2 : String) (fsz : Option Nat) (k : Nat) : PyClient :=
  { create_export := some (fun _ => Except.ok { path := some eid }),
    check_export_status := some (fun _ attempt =>
      Except.ok (if k ≤ attempt then
                   { status := some "done", uri := some uri2, filesize := fsz }
                 else { status := some "processing" })),
    download_file := some (fun _ _ => Except.ok ()) }

theorem pollLoop_happy (eid uri2 target_dir : String) (fsz : Option Nat) (k : Nat)
    (hu : uri2 ≠ "") : ∀ fuel attempt : Nat, attempt ≤ k → k < attempt + fuel →
    (pollLoop (happyClient eid uri2 fsz k) eid target_dir fuel attempt).1 =
      Except.ok { filename := (uri2.splitOn "\\").getLastD "", uri := uri2,
                  out_file := target_dir ++ "/" ++ (uri2.splitOn "\\").getLastD "",
                  filesize := fsz } := by
  intro fuel
  induction fuel with
  | zero =>
    intro attempt h1 h2
    omega
  | succ n ih =>
    intro attempt h1 h2
    by_cases hk : k ≤ attempt
    · unfold pollLoop
      simp [callCheckExportStatus, callDownloadFile, happyClient, hk, hu]
    · have e : (pollLoop (happyClient eid uri2 fsz k) eid target_dir (n + 1) attempt).1 =
          (pollLoop (happyClient eid uri2 fsz k) eid target_dir n (attempt + 1)).1 := by
        conv_lhs => rw [pollLoop]
        simp [callCheckExportStatus, happyClient, hk]
      rw [e]
      exact ih (attempt + 1) (by omega) (by omega)

/-- C2 counterexample: the happy-path scenario — one clip, enqueue ok, two
`processing` polls then `done` with a locator, successful download — from the
empty tracker ends with one `success` record, but the interim queued marker
was itself recorded with status `skipped`, so the final global counters are
success=1, failed=0, skipped=1, refuting the claimed `skipped=0`. -/
theorem happy_path_counters_counterexample :
    (export_single_clip (happyClient "E1" "Clipboard\\front.2026-01-10.mp4" (some 12345) 2)
        (emptyStore 0) "front" "@2026-01-10_180000" "/root/front/2026-01-10"
        10 11 12).1.status = "success" ∧
    (export_single_clip (happyClient "E1" "Clipboard\\front.2026-01-10.mp4" (some 12345) 2)
        (emptyStore 0) "front" "@2026-01-10_180000" "/root/front/2026-01-10"
        10 11 12).2.1.counters = { success := 1, failed := 0, skipped := 1 } ∧
    ¬ (export_single_clip (happyClient "E1" "Clipboard\\front.2026-01-10.mp4" (some 12345) 2)
        (emptyStore 0) "front" "@2026-01-10_180000" "/root/front/2026-01-10"
        10 11 12).2.1.counters.skipped = 0 := by
  refine ⟨rfl, rfl, by decide⟩

/-- C2 (amended): for a job with exactly one matching clip whose export is
enqueued, polled to done with a locator within the attempt budget, and
downloaded successfully, starting from an empty tracker, the final tracker
contains exactly one record, with status `success`, and the global counters
are success=1, failed=0, skipped=1 — the skipped count comes from the interim
queued marker the worker records with status `skipped` before polling. -/
theorem happy_path_counters (eid uri2 camera clip_path target_dir : String)
    (fsz : Option Nat) (k t0 t1 t2 tL : Nat) (hk : k < 300) (hu : uri2 ≠ "") :
    (export_single_clip (happyClient eid uri2 fsz k) (emptyStore tL) camera clip_path
        target_dir t0 t1 t2).1.status = "success" ∧
    (export_single_clip (happyClient eid uri2 fsz k) (emptyStore tL) camera clip_path
        target_dir t0 t1 t2).2.1.counters =
      { success := 1, failed := 0, skipped := 1 } ∧
    (export_single_clip (happyClient eid uri2 fsz k) (emptyStore tL) camera clip_path
        target_dir t0 t1 t2).2.1.clips.length = 1 ∧
    (lookupA (clip_key camera clip_path)
        (export_single_clip (happyClient eid uri2 fsz k) (emptyStore tL) camera clip_path
          target_dir t0 t1 t2).2.1.clips).map TrackerRecord.status = some "success" := by
  have hpoll := pollLoop_happy eid uri2 target_dir fsz k hu 300 0 (by omega) (by omega)
  have hn : (emptyStore tL).has_success camera clip_path = false := rfl
  have hcreate : callCreateExport (happyClient eid uri2 fsz k) clip_path =
      Except.ok { path := some eid } := rfl
  set info : DownloadedInfo :=
    { filename := (uri2.splitOn "\\").getLastD "", uri := uri2,
      out_file := target_dir ++ "/" ++ (uri2.splitOn "\\").getLastD "",
      filesize := fsz } with hinfo
  have e : export_single_clip (happyClient eid uri2 fsz k) (emptyStore tL) camera clip_path
      target_dir t0 t1 t2 =
      ({ camera := camera, clip := clip_path, status := "success",
         file := some info.out_file },
       ((emptyStore tL).record camera clip_path "skipped"
          { started_at_utc := some t0, export_id := some eid, reason := some "queued" }
          t1).record camera clip_path "success"
          { started_at_utc := some t0, finished_at_utc := some t2, export_id := some eid,
            filename := some info.filename, uri := some info.uri,
            filesize := info.filesize } t2,
       ClientCall.createExport clip_path ::
         (pollLoop (happyClient eid uri2 fsz k) eid target_dir 300 0).2) := by
    unfold export_single_clip
    rw [hn]
    simp only [Bool.false_eq_true, if_false, hcreate, hpoll]
  rw [e]
  refine ⟨rfl, ?_, ?_, record_lookup_status _ camera clip_path "success" _ t2⟩
  · rw [record_counters, record_counters]
    rfl
  · show (insertA (clip_key camera clip_path) _
      (insertA (clip_key camera clip_path) _ [])).length = 1
    simp [insertA]

/-- C2 witness: the amended happy-path theorem at the spec's scenario inputs
(`E1`, locator `Clipboard\front.2026-01-10.mp4`, two processing polls). -/
theorem happy_path_counters_witness :
    (export_single_clip (happyClient "E1" "Clipboard\\front.2026-01-10.mp4" (some 99) 2)
        (emptyStore 0) "front" "@2026-01-10_180000" "/out/front/2026-01-10"
        10 11 12).1.status = "success" ∧
    (export_single_clip (happyClient "E1" "Clipboard\\front.2026-01-10.mp4" (some 99) 2)
        (emptyStore 0) "front" "@2026-01-10_180000" "/out/front/2026-01-10"
        10 11 12).2.1.counters = { success := 1, failed := 0, skipped := 1 } ∧
    (export_single_clip (happyClient "E1" "Clipboard\\front.2026-01-10.mp4" (some 99) 2)
        (emptyStore 0) "front" "@2026-01-10_180000" "/out/front/2026-01-10"
        10 11 12).2.1.clips.length = 1 ∧
    (lookupA (clip_key "front" "@2026-01-10_180000")
        (export_single_clip (happyClient "E1" "Clipboard\\front.2026-01-10.mp4" (some 99) 2)
          (emptyStore 0) "front" "@2026-01-10_180000" "/out/front/2026-01-10"
          10 11 12).2.1.clips).map TrackerRecord.status = some "success" :=
  happy_path_counters "E1" "Clipboard\\front.2026-01-10.mp4" "front" "@2026-01-10_180000"
    "/out/front/2026-01-10" (some 99) 2 10 11 12 0 (by decide) (by decide)

/-! ## C7 — download writes the final name directly -/

/-- The bytes delivered by a sequence of chunks. -/
def joinChunks : List String → String
  | [] => ""
  | c :: rest => c ++ joinChunks rest

theorem writeBody_chunks_then_err (out : String) (e : String) :
    ∀ (pre : List String) (fs : FS) (cur : String), lookupA out fs = some cur →
    (writeBody out (pre.map BodyItem.chunk ++ [BodyItem.errItem e]) fs).1 = some e ∧
    lookupA out (writeBody out (pre.map BodyItem.chunk ++ [BodyItem.errItem e]) fs).2 =
      some (cur ++ joinChunks pre) := by
  intro pre
  induction pre with
  | nil =>
    intro fs cur hc
    simp [writeBody, hc, joinChunks]
  | cons c0 rest ih =>
    intro fs cur hc
    by_cases hz : c0 = ""
    · have e1 : writeBody out ((c0 :: rest).map BodyItem.chunk ++ [BodyItem.errItem e]) fs =
          writeBody out (rest.map BodyItem.chunk ++ [BodyItem.errItem e]) fs := by
        simp [writeBody, hz]
      rw [e1]
      have h2 := ih fs cur hc
      rw [show joinChunks (c0 :: rest) = joinChunks rest by rw [joinChunks, hz]; simp]
      exact h2
    · have e1 : writeBody out ((c0 :: rest).map BodyItem.chunk ++ [BodyItem.errItem e]) fs =
          writeBody out (rest.map BodyItem.chunk ++ [BodyItem.errItem e])
            (insertA out (cur ++ c0) fs) := by
        simp [writeBody, hz, hc]
      rw [e1]
      have h2 := ih (insertA out (cur ++ c0) fs) (cur ++ c0)
        (lookupA_insertA_eq out (cur ++ c0) fs)
      rw [show cur ++ joinChunks (c0 :: rest) = cur ++ c0 ++ joinChunks rest by
        rw [joinChunks, String.append_assoc]]
      exact h2

/-- C7 counterexample: a transfer that returns HTTP 200 and then dies after
delivering one chunk leaves that partial chunk stored under the final output
name — no temporary name is involved — refuting the claim that a failed
transfer never leaves a partial file under the final name. -/
theorem download_partial_file_counterexample :
    (download_file_when_ready
        (fun _ => { status_code := 200,
                    body := [BodyItem.chunk "AB", BodyItem.errItem "connection reset"] })
        "out.mp4" 30 0 []).1 = some "connection reset" ∧
    lookupA "out.mp4"
        (download_file_when_ready
          (fun _ => { status_code := 200,
                      body := [BodyItem.chunk "AB", BodyItem.errItem "connection reset"] })
          "out.mp4" 30 0 []).2 = some "AB" := by
  refine ⟨rfl, rfl⟩

/-- C7 (amended): `download_file_when_ready` streams the body directly to the
final output name, with no temporary file and no rename: whenever the HTTP
response is 200 and the body iteration raises after delivering some chunks,
the exception propagates and the chunks already received remain on disk
under the final output name. -/
theorem download_partial_file_remains (pre : List String) (e out : String) (fs : FS)
    (n i : Nat) :
    (download_file_when_ready
        (fun _ => { status_code := 200,
                    body := pre.map BodyItem.chunk ++ [BodyItem.errItem e] })
        out (n + 1) i fs).1 = some e ∧
    lookupA out
        (download_file_when_ready
          (fun _ => { status_code := 200,
                      body := pre.map BodyItem.chunk ++ [BodyItem.errItem e] })
          out (n + 1) i fs).2 = some (joinChunks pre) := by
  have e1 : download_file_when_ready
      (fun _ => { status_code := 200,
                  body := pre.map BodyItem.chunk ++ [BodyItem.errItem e] })
      out (n + 1) i fs =
      writeBody out (pre.map BodyItem.chunk ++ [BodyItem.errItem e])
        (insertA out "" fs) := by
    unfold download_file_when_ready
    simp
  rw [e1]
  have h2 := writeBody_chunks_then_err out e pre (insertA out "" fs) ""
    (lookupA_insertA_eq out "" fs)
  simpa using h2

/-! ## C10 — weekend job scheduler -/

theorem generate_weekend_dates_eq_filter (e : Nat) :
    ∀ n s : Nat, e + 1 - s = n →
    generate_weekend_dates s e = (List.range' s n).filter isWeekendDay := by
  intro n
  induction n with
  | zero =>
    intro s h
    unfold generate_weekend_dates
    rw [if_neg (by omega)]
    simp
  | succ m ih =>
    intro s h
    unfold generate_weekend_dates
    rw [if_pos (by omega)]
    rw [List.range'_succ, List.filter_cons, ih (s + 1) (by omega)]
    by_cases w : isWeekendDay s <;> simp [w]

theorem length_filter_eq_one_of_nodup {α : Type} [DecidableEq α] :
    ∀ (l : List α), l.Nodup → ∀ a ∈ l, (l.filter (fun q => q = a)).length = 1 := by
  intro l
  induction l with
  | nil => intro _ a ha; simp at ha
  | cons x xs ih =>
    intro hnd a ha
    rw [List.nodup_cons] at hnd
    rcases List.mem_cons.1 ha with h | h
    · have hz : (xs.filter (fun q => decide (q = a))).length = 0 := by
        rw [List.length_eq_zero]
        rw [List.filter_eq_nil_iff]
        intro b hb
        simp only [decide_eq_true_eq]
        rintro rfl
        exact hnd.1 (h ▸ hb)
      rw [List.filter_cons]
      simp [← h, hz]
    · have hx : ¬ x = a := by
        rintro rfl
        exact hnd.1 h
      rw [List.filter_cons]
      simp only [decide_eq_true_eq, hx, if_false]
      exact ih hnd.2 a h

/-- C10: for every inclusive ordinal date range and camera list,
`build_weekend_jobs` produces the jobs of exactly the (weekend date, camera)
pairs: the generated dates are exactly the Fridays, Saturdays and Sundays in
the range, in strictly ascending order; each job carries the fixed start
time, end time and timezone; a start date after the end date yields the
empty job list; and with distinct camera names each such pair yields exactly
one job. -/
theorem scheduler_weekend_jobs (s e : Nat) (cameras : List String)
    (tz startT endT : String) :
    (e < s → build_weekend_jobs s e cameras tz startT endT = []) ∧
    (∀ d, d ∈ generate_weekend_dates s e ↔ (s ≤ d ∧ d ≤ e ∧ isWeekendDay d = true)) ∧
    (generate_weekend_dates s e).Pairwise (· < ·) ∧
    ((build_weekend_jobs s e cameras tz startT endT).map (fun j => (j.date, j.camera)) =
      (generate_weekend_dates s e).flatMap (fun d => cameras.map (fun c => (d, c)))) ∧
    (∀ j ∈ build_weekend_jobs s e cameras tz startT endT,
      j.start = startT ∧ j.endT = endT ∧ j.timezone = tz) ∧
    (cameras.Nodup → ∀ d c, s ≤ d → d ≤ e → isWeekendDay d = true → c ∈ cameras →
      (((build_weekend_jobs s e cameras tz startT endT).map
        (fun j => (j.date, j.camera))).filter (fun q => q = (d, c))).length = 1) := by
  have hgen := generate_weekend_dates_eq_filter e (e + 1 - s) s rfl
  have hmem : ∀ d, d ∈ generate_weekend_dates s e ↔
      (s ≤ d ∧ d ≤ e ∧ isWeekendDay d = true) := by
    intro d
    rw [hgen]
    simp only [List.mem_filter, List.mem_range'_1]
    constructor
    · rintro ⟨⟨h1, h2⟩, h3⟩
      exact ⟨by omega, by omega, h3⟩
    · rintro ⟨h1, h2, h3⟩
      exact ⟨⟨by omega, by omega⟩, h3⟩
  have hpair : (generate_weekend_dates s e).Pairwise (· < ·) := by
    rw [hgen]
    exact (List.pairwise_lt_range' s (e + 1 - s) 1).filter _
  have hmapPairs : (build_weekend_jobs s e cameras tz startT endT).map
      (fun j => (j.date, j.camera)) =
      (generate_weekend_dates s e).flatMap (fun d => cameras.map (fun c => (d, c))) := by
    unfold build_weekend_jobs
    rw [List.map_flatMap]
    simp only [List.map_map]
    rfl
  refine ⟨?_, hmem, hpair, hmapPairs, ?_, ?_⟩
  · intro hlt
    unfold build_weekend_jobs
    unfold generate_weekend_dates
    rw [if_neg (by omega)]
    rfl
  · intro j hj
    unfold build_weekend_jobs at hj
    rw [List.mem_flatMap] at hj
    obtain ⟨d, _, hj2⟩ := hj
    rw [List.mem_map] at hj2
    obtain ⟨c, _, hj3⟩ := hj2
    rw [← hj3]
    exact ⟨rfl, rfl, rfl⟩
  · intro hnd d c h1 h2 h3 hc
    have hmemPair : (d, c) ∈ (build_weekend_jobs s e cameras tz startT endT).map
        (fun j => (j.date, j.camera)) := by
      rw [hmapPairs, List.mem_flatMap]
      exact ⟨d, (hmem d).2 ⟨h1, h2, h3⟩, List.mem_map.2 ⟨c, hc, rfl⟩⟩
    have hndPairs : ((build_weekend_jobs s e cameras tz startT endT).map
        (fun j => (j.date, j.camera))).Nodup := by
      rw [hmapPairs]
      rw [List.nodup_flatMap]
      constructor
      · intro d2 _
        exact hnd.map (fun a b hab => by simpa using congrArg Prod.snd hab)
      · apply hpair.imp
        intro a b hab
        simp only [Function.onFun]
        intro x hxa hxb
        rw [List.mem_map] at hxa hxb
        obtain ⟨c1, _, hc1⟩ := hxa
        obtain ⟨c2, _, hc2⟩ := hxb
        have ha1 : a = x.1 := congrArg Prod.fst hc1
        have hb1 : b = x.1 := congrArg Prod.fst hc2
        omega
    exact length_filter_eq_one_of_nodup _ hndPairs (d, c) hmemPair

/-- C10 witness: the scheduler statement applied to ordinals 1..7 of year 1
(5, 6, 7 are the Friday, Saturday and Sunday) with two distinct cameras,
checking that the (5, front) pair is produced exactly once. -/
theorem scheduler_weekend_jobs_witness :
    (((build_weekend_jobs 1 7 ["front", "back"] "America/Chicago" "18:00:00"
      "23:00:00").map (fun j => (j.date, j.camera))).filter
        (fun q => q = (5, "front"))).length = 1 :=
  (scheduler_weekend_jobs 1 7 ["front", "back"] "America/Chicago" "18:00:00"
    "23:00:00").2.2.2.2.2 (by decide) 5 "front" (by decide) (by decide) (by decide)
    (by decide)

end BIExport
